import Mathlib

/-!
Shallow embedding of the sleep-tracker web application (src/app.py).

Timestamps are naive local datetimes modelled as integer microseconds since a
fixed epoch (Python datetimes have microsecond resolution).  A calendar day is
the integer index of the day: day `d` covers the microsecond range
`[d * usPerDay, (d+1) * usPerDay)`; `datetime.combine(d, time.min)` is
`d * usPerDay` and `datetime.combine(d, time.max)` is
`d * usPerDay + (usPerDay - 1)`, i.e. `d` at 23:59:59.999999.

The persistence store (the `sleep_records` table managed through SQLAlchemy)
is modelled as the list of committed rows together with the next primary key.
Each handler is a function from its parsed request data and the committed
store to the new committed store and the response; session state that a
handler abandons without committing (rolled back or discarded when the
request-scoped session is removed) does not appear in the store.
-/

namespace SleepTracker

/-- Microseconds per hour. -/
def usPerHour : Int := 3600000000

/-- Microseconds per calendar day. -/
def usPerDay : Int := 86400000000

/-- The `SleepRecord` model (src/app.py lines 25-33): one row of the
`sleep_records` table. -/
structure SleepRecord where
  id : Nat
  sleep_time : Int
  wake_time : Int
  notes : String
  created_at : Int
deriving DecidableEq, Repr

/-- The committed persistence store: the rows plus the next auto-assigned
primary key. -/
structure Store where
  records : List SleepRecord
  nextId : Nat
deriving DecidableEq, Repr

/-- The row a handler builds before `db.session.add`: the store assigns the
primary key, and `created_at` defaults to the current time `now`. -/
def mkRecord (s : Store) (sleep wake : Int) (nt : String) (now : Int) : SleepRecord :=
  ⟨s.nextId, sleep, wake, nt, now⟩

/-- `db.session.add` followed by `db.session.commit`. -/
def insertRecord (s : Store) (r : SleepRecord) : Store :=
  ⟨s.records ++ [r], s.nextId + 1⟩

/-- Floor of a rational as an integer (the denominator is positive, so
`Int.fdiv` of numerator by denominator is the floor). -/
def qFloor (q : ℚ) : Int := Int.fdiv q.num q.den

/-- Python rounding of a rational to the nearest integer: half-way cases go
to the even neighbour (bankers rounding). -/
def roundHalfEven (q : ℚ) : Int :=
  let f := qFloor q
  if q - (f : ℚ) < 1 / 2 then f
  else if 1 / 2 < q - (f : ℚ) then f + 1
  else if f % 2 = 0 then f else f + 1

/-- Python `round(x, 2)`, idealising binary floats as exact rationals. -/
def pyRound2 (q : ℚ) : ℚ := (roundHalfEven (q * 100) : ℚ) / 100

/-- `timedelta.total_seconds()` of a difference of `d` microseconds. -/
def total_seconds (d : Int) : ℚ := (d : ℚ) / 1000000

/-- The `sleep_duration` property (src/app.py lines 35-39):
`round((wake_time - sleep_time).total_seconds() / 3600, 2)`. -/
def SleepRecord.sleep_duration (r : SleepRecord) : ℚ :=
  pyRound2 (total_seconds (r.wake_time - r.sleep_time) / 3600)

/-- The duration formula exactly as the specification words it: the
difference expressed in seconds, divided by 3600, rounded to 2 decimals. -/
def duration_hours_spec (sleep wake : Int) : ℚ :=
  pyRound2 (((wake : ℚ) - (sleep : ℚ)) / 1000000 / 3600)

/-- `datetime.combine(selected_date, datetime.min.time())` (line 55). -/
def start_of_day (d : Int) : Int := d * usPerDay

/-- `datetime.combine(selected_date, datetime.max.time())` (line 56). -/
def end_of_day (d : Int) : Int := d * usPerDay + (usPerDay - 1)

/-- Descending order on `sleep_time`: the
`order_by(SleepRecord.sleep_time.desc())` of line 61. -/
def bySleepDesc (a b : SleepRecord) : Prop := b.sleep_time ≤ a.sleep_time

instance : DecidableRel bySleepDesc :=
  fun a b => inferInstanceAs (Decidable (b.sleep_time ≤ a.sleep_time))

instance : IsTotal SleepRecord bySleepDesc :=
  ⟨fun a b => le_total b.sleep_time a.sleep_time⟩

instance : IsTrans SleepRecord bySleepDesc :=
  ⟨fun _ _ _ h1 h2 => le_trans h2 h1⟩

/-- The query of the home route (src/app.py lines 58-61): the rows whose
`sleep_time` lies in the inclusive day window, ordered by `sleep_time`
descending.  The specification calls this store operation `find_by_day`. -/
def find_by_day (recs : List SleepRecord) (d : Int) : List SleepRecord :=
  List.insertionSort bySleepDesc
    (recs.filter (fun r =>
      decide (start_of_day d ≤ r.sleep_time) && decide (r.sleep_time ≤ end_of_day d)))

/-- The parsed form of the add/edit pages: two `%Y-%m-%dT%H:%M` datetimes
and the free-text field. -/
structure AddForm where
  sleep_time : Int
  wake_time : Int
  notes : String
deriving DecidableEq, Repr

/-- Response of the add handler: a redirect to the list page, or the add
form rendered again with an error message. -/
inductive AddResult where
  | redirect
  | formError (msg : String)
deriving DecidableEq, Repr

/-- The timestamp-ordering validation message (lines 94 and 190). -/
def orderErrMsg : String := "Czas pobudki musi być późniejszy niż czas zaśnięcia."

/-- The POST path of `add_record` (src/app.py lines 87-103). -/
def add_record (now : Int) (form : AddForm) (s : Store) : Store × AddResult :=
  if form.wake_time ≤ form.sleep_time then
    (s, AddResult.formError orderErrMsg)
  else
    (insertRecord s (mkRecord s form.sleep_time form.wake_time form.notes now),
     AddResult.redirect)

/-- JSON response of `start_nap`: the status and the current instant
converted to the Warsaw timezone (returned to the client, never stored). -/
structure StartNapResponse where
  status : String
  start_time : Int
deriving DecidableEq, Repr

/-- `start_nap` (src/app.py lines 112-124): returns the current
Warsaw-local instant as JSON; it performs no database operation. -/
def start_nap (nowWarsaw : Int) (s : Store) : Store × StartNapResponse :=
  (s, ⟨"success", nowWarsaw⟩)

/-- An ISO-8601 datetime as parsed by `datetime.fromisoformat`: the local
wall-clock reading plus an optional UTC offset. -/
structure TzDateTime where
  wall : Int
  offsetMinutes : Option Int
deriving DecidableEq, Repr

/-- `dt.replace(tzinfo=None)` keeps the wall-clock fields and drops the
offset (src/app.py lines 136-137). -/
def TzDateTime.replaceTzNone (t : TzDateTime) : Int := t.wall

/-- The JSON body of `stop_nap`. -/
structure StopNapBody where
  start_time : TzDateTime
  end_time : TzDateTime
deriving DecidableEq, Repr

/-- A JSON `{status, message}` payload. -/
structure JsonMsg where
  status : String
  message : String
deriving DecidableEq, Repr

/-- The count query of `stop_nap` (src/app.py lines 141-144): the number of
records whose `sleep_time` falls on `today` (at least the start of the day
and strictly before the next day).  The specification calls this store
operation `count_by_day`. -/
def count_by_day (recs : List SleepRecord) (today : Int) : Nat :=
  (recs.filter (fun r =>
    decide (start_of_day today ≤ r.sleep_time) &&
    decide (r.sleep_time < start_of_day (today + 1)))).length

/-- `stop_nap` (src/app.py lines 126-164): strips the timezone from both
parsed timestamps, counts today's naps, builds the notes string
`"Drzemka nr {count+1}"`, inserts and commits the record, and answers
`{status: "success", message: "Drzemka zapisana"}`.  It performs no
ordering validation of the two timestamps. -/
def stop_nap (today now : Int) (body : StopNapBody) (s : Store) : Store × JsonMsg :=
  let sleep_time := body.start_time.replaceTzNone
  let wake_time := body.end_time.replaceTzNone
  let naps_today := count_by_day s.records today
  let nt := "Drzemka nr " ++ toString (naps_today + 1)
  (insertRecord s (mkRecord s sleep_time wake_time nt now),
   ⟨"success", "Drzemka zapisana"⟩)

/-- Response of the delete handler: a redirect, or an HTML error page
carried with its HTTP status code. -/
inductive DeleteResult where
  | redirect
  | errorPage (msg : String) (code : Nat)
deriving DecidableEq, Repr

/-- HTTP status of a delete response: a redirect is 302, and a rendered
template returned from a view defaults to 200. -/
def DeleteResult.statusCode : DeleteResult → Nat
  | DeleteResult.redirect => 302
  | DeleteResult.errorPage _ c => c

/-- The error message of the delete handler (src/app.py line 176). -/
def deleteErrMsg : String := "Nie udało się usunąć wpisu."

/-- `delete_record` (src/app.py lines 166-176).  `get_or_404` on a missing
id raises a `NotFound` exception; the lookup sits inside the `try` block
and `NotFound` subclasses `Exception`, so the broad `except` catches it and
renders the generic delete-error page, which Flask returns with the default
status 200. -/
def delete_record (rid : Nat) (s : Store) : Store × DeleteResult :=
  match s.records.find? (fun r => decide (r.id = rid)) with
  | none => (s, DeleteResult.errorPage deleteErrMsg 200)
  | some _ => (⟨s.records.filter (fun r => decide (¬ r.id = rid)), s.nextId⟩,
               DeleteResult.redirect)

/-- Response of the edit handler: the 404 page (missing id: `get_or_404`
sits outside the `try` block, so the exception reaches Flask's 404
handler), a redirect, or the edit form rendered again with the record
object it was handed and an error message. -/
inductive EditResult where
  | notFoundPage
  | redirect
  | formError (shown : SleepRecord) (msg : String)
deriving DecidableEq, Repr

/-- The three attribute assignments of src/app.py lines 185-187: overwrite
`sleep_time`, `wake_time` and `notes`, keeping `id` and `created_at`. -/
def applyForm (r : SleepRecord) (form : AddForm) : SleepRecord :=
  ⟨r.id, form.sleep_time, form.wake_time, form.notes, r.created_at⟩

/-- The effect of committing the edit assignments on one stored row. -/
def editApply (rid : Nat) (form : AddForm) (q : SleepRecord) : SleepRecord :=
  if q.id = rid then applyForm q form else q

/-- The POST path of `edit_record` (src/app.py lines 178-197).  The handler
mutates the loaded object first and validates afterwards; on validation
failure it renders the form with that mutated object and commits nothing,
so the store keeps the old row (the uncommitted session is discarded). -/
def edit_record (rid : Nat) (form : AddForm) (s : Store) : Store × EditResult :=
  match s.records.find? (fun r => decide (r.id = rid)) with
  | none => (s, EditResult.notFoundPage)
  | some r =>
    let shown := applyForm r form
    if shown.wake_time ≤ shown.sleep_time then
      (s, EditResult.formError shown orderErrMsg)
    else
      (⟨s.records.map (editApply rid form), s.nextId⟩, EditResult.redirect)

/-- The empty store. -/
def store0 : Store := ⟨[], 0⟩

/-- 2024-01-01 as a day index: 19723 days after 1970-01-01. -/
def jan1_2024 : Int := 19723

/-- A record sleeping 2024-01-01T22:00 and waking 2024-01-02T06:00. -/
def recC5 : SleepRecord :=
  ⟨1, jan1_2024 * usPerDay + 22 * usPerHour,
   (jan1_2024 + 1) * usPerDay + 6 * usPerHour, "", 0⟩

/-- A record with `sleep_time` at 08:00 of day 0. -/
def rec08 : SleepRecord := ⟨0, 8 * usPerHour, 9 * usPerHour, "a", 0⟩

/-- A record with `sleep_time` at 14:00 of day 0. -/
def rec14 : SleepRecord := ⟨1, 14 * usPerHour, 15 * usPerHour, "b", 0⟩

/-- A store holding two records whose `sleep_time` falls on day 0. -/
def storeDay0 : Store := ⟨[rec08, rec14], 2⟩

/-- A valid form submission: sleeps at 01:00, wakes at 02:00 of day 0. -/
def formOk : AddForm := ⟨1 * usPerHour, 2 * usPerHour, "x"⟩

/-- An inverted form submission: wake before sleep. -/
def formBad : AddForm := ⟨2 * usPerHour, 1 * usPerHour, "y"⟩

/-- A stop-timer body whose end precedes its start (offsets +120 min). -/
def bodyBad : StopNapBody := ⟨⟨2 * usPerHour, some 120⟩, ⟨1 * usPerHour, some 120⟩⟩

/-- The record `stop_nap` persists for `bodyBad` on the empty store. -/
def recBad : SleepRecord := ⟨0, 2 * usPerHour, 1 * usPerHour, "Drzemka nr 1", 0⟩

/-- A stop-timer body on day 0: wall clock 16:00 to 17:00, offset +60. -/
def bodyDay0 : StopNapBody := ⟨⟨16 * usPerHour, some 60⟩, ⟨17 * usPerHour, some 60⟩⟩

/-! ## Helper lemmas -/

theorem fdiv_one (n : Int) : Int.fdiv n 1 = n := by
  rcases n with (_ | k) | k <;> simp [Int.fdiv, Nat.div_one]

theorem qFloor_intCast (n : Int) : qFloor ((n : ℚ)) = n := by
  unfold qFloor
  rw [Rat.num_intCast, Rat.den_intCast]
  simp [fdiv_one n]

theorem roundHalfEven_intCast (m : Int) : roundHalfEven ((m : ℚ)) = m := by
  unfold roundHalfEven
  rw [qFloor_intCast]
  norm_num

theorem pyRound2_intCast (n : Int) : pyRound2 ((n : ℚ)) = (n : ℚ) := by
  unfold pyRound2
  have h : ((n : ℚ)) * 100 = (((n * 100 : Int)) : ℚ) := by push_cast; ring
  rw [h, roundHalfEven_intCast]
  push_cast
  ring

theorem editApply_idem (rid : Nat) (form : AddForm) (q : SleepRecord) :
    editApply rid form (editApply rid form q) = editApply rid form q := by
  by_cases h : q.id = rid <;> simp [editApply, applyForm, h]

theorem find?_map_editApply (rid : Nat) (form : AddForm) (l : List SleepRecord) :
    (l.map (editApply rid form)).find? (fun r => decide (r.id = rid)) =
      (l.find? (fun r => decide (r.id = rid))).map (editApply rid form) := by
  induction l with
  | nil => rfl
  | cons a t ih =>
    by_cases h : a.id = rid
    · have hid : (editApply rid form a).id = a.id := by
        simp [editApply, applyForm, h]
      rw [List.map_cons, List.find?_cons_of_pos, List.find?_cons_of_pos] <;>
        simp [hid, h]
    · have hid : (editApply rid form a).id = a.id := by
        simp [editApply, h]
      rw [List.map_cons, List.find?_cons_of_neg, List.find?_cons_of_neg, ih] <;>
        simp [hid, h]

theorem edit_record_of_notfound (rid : Nat) (form : AddForm) (s : Store)
    (hfind : s.records.find? (fun q => decide (q.id = rid)) = none) :
    edit_record rid form s = (s, EditResult.notFoundPage) := by
  unfold edit_record
  rw [hfind]

theorem edit_record_of_found (rid : Nat) (form : AddForm) (s : Store) (r : SleepRecord)
    (hfind : s.records.find? (fun q => decide (q.id = rid)) = some r) :
    edit_record rid form s =
      if (applyForm r form).wake_time ≤ (applyForm r form).sleep_time then
        (s, EditResult.formError (applyForm r form) orderErrMsg)
      else
        (⟨s.records.map (editApply rid form), s.nextId⟩, EditResult.redirect) := by
  unfold edit_record
  rw [hfind]

/-! ## Claim theorems -/

/-- Claim C1 (amended).  Every record a successful add or edit submission
commits either already sat in the store or satisfies
`sleep_time < wake_time`; the claim's further assertion that records
created by the stop-timer handler also satisfy the invariant is false
(`stop_nap` performs no ordering validation, see the counterexample). -/
theorem claim1_create_edit_invariant (now : Int) (form : AddForm) (s : Store) (rid : Nat) :
    ((add_record now form s).2 = AddResult.redirect →
      ((add_record now form s).1.records.all
        (fun r => decide (r ∈ s.records) || decide (r.sleep_time < r.wake_time))) = true) ∧
    ((edit_record rid form s).2 = EditResult.redirect →
      ((edit_record rid form s).1.records.all
        (fun r => decide (r ∈ s.records) || decide (r.sleep_time < r.wake_time))) = true) := by
  constructor
  · intro hred
    by_cases hle : form.wake_time ≤ form.sleep_time
    · simp [add_record, hle] at hred
    · simp only [add_record, if_neg hle] at hred ⊢
      simp only [insertRecord, mkRecord, List.all_append, List.all_cons, List.all_nil,
        Bool.and_eq_true, List.all_eq_true, Bool.or_eq_true, decide_eq_true_iff]
      refine ⟨fun r hr => Or.inl hr, Or.inr (not_le.mp hle), trivial⟩
  · intro hred
    cases hfind : s.records.find? (fun q => decide (q.id = rid)) with
    | none =>
      rw [edit_record_of_notfound rid form s hfind] at hred
      simp at hred
    | some r =>
      rw [edit_record_of_found rid form s r hfind] at hred ⊢
      by_cases hle : (applyForm r form).wake_time ≤ (applyForm r form).sleep_time
      · rw [if_pos hle] at hred; simp at hred
      · rw [if_neg hle] at hred ⊢
        simp only [List.all_eq_true, Bool.or_eq_true, decide_eq_true_iff]
        intro x hx
        rw [List.mem_map] at hx
        obtain ⟨q, hq, hxq⟩ := hx
        by_cases hid : q.id = rid
        · right
          rw [← hxq]
          simp only [editApply, if_pos hid, applyForm] at *
          exact not_le.mp hle
        · left
          rw [← hxq]
          simp only [editApply, if_neg hid]
          exact hq

/-- Witness for claim C1: a concrete successful add on the empty store. -/
theorem claim1_create_edit_invariant_witness :
    (add_record 0 formOk store0).2 = AddResult.redirect ∧
    ((add_record 0 formOk store0).1.records.all
      (fun r => decide (r ∈ store0.records) || decide (r.sleep_time < r.wake_time))) = true :=
  ⟨by decide, (claim1_create_edit_invariant 0 formOk store0 0).1 (by decide)⟩

/-- Counterexample to claim C1 as stated: the stop-timer handler commits a
record whose `wake_time` precedes its `sleep_time` and reports success. -/
theorem claim1_stop_nap_violates_invariant :
    (stop_nap 0 0 bodyBad store0).2.status = "success" ∧
    (stop_nap 0 0 bodyBad store0).1.records = [recBad] ∧
    ¬ recBad.sleep_time < recBad.wake_time := by decide

/-- Claim C2 (amended).  A successful stop-timer request counts today's
records via the `count_by_day` query, stores the new record with notes
`"Drzemka nr " ++ (count+1)` (the handler's Polish equivalent of
"Nap #(count+1)") and answers status `"success"` with the Polish message
`"Drzemka zapisana"` ("saved"); with 2 existing records the new notes are
`"Drzemka nr 3"`. -/
theorem claim2_stop_nap_behavior (today now w1 w2 : Int) (o1 o2 : Option Int) (s : Store) :
    stop_nap today now ⟨⟨w1, o1⟩, ⟨w2, o2⟩⟩ s =
      (insertRecord s (mkRecord s w1 w2
        ("Drzemka nr " ++ toString (count_by_day s.records today + 1)) now),
       ⟨"success", "Drzemka zapisana"⟩) ∧
    (stop_nap 0 0 bodyDay0 storeDay0).1.records.getLast? =
      some (mkRecord storeDay0 bodyDay0.start_time.wall bodyDay0.end_time.wall
        "Drzemka nr 3" 0) := by
  constructor
  · rfl
  · decide

/-- Counterexample to claim C2 as stated: with 2 existing records for the
day the stored notes are `"Drzemka nr 3"`, not `"Nap #3"`, and the message
is `"Drzemka zapisana"`, not `"saved"`. -/
theorem claim2_polish_strings_counterexample :
    count_by_day storeDay0.records 0 = 2 ∧
    ((stop_nap 0 0 bodyDay0 storeDay0).1.records.map (fun r => r.notes)).getLast? =
      some "Drzemka nr 3" ∧
    ¬ ((stop_nap 0 0 bodyDay0 storeDay0).1.records.map (fun r => r.notes)).getLast? =
      some "Nap #3" ∧
    (stop_nap 0 0 bodyDay0 storeDay0).2.message = "Drzemka zapisana" ∧
    ¬ (stop_nap 0 0 bodyDay0 storeDay0).2.message = "saved" := by decide

/-- Claim C3.  An add or edit submission whose parsed timestamps satisfy
`wake_time ≤ sleep_time` leaves the committed store unchanged and yields
the corresponding form with the validation message. -/
theorem claim3_invalid_order_rejected (now : Int) (form : AddForm) (s : Store)
    (rid : Nat) (r : SleepRecord)
    (hbad : form.wake_time ≤ form.sleep_time) :
    add_record now form s = (s, AddResult.formError orderErrMsg) ∧
    (s.records.find? (fun q => decide (q.id = rid)) = some r →
      edit_record rid form s = (s, EditResult.formError (applyForm r form) orderErrMsg)) := by
  constructor
  · simp [add_record, hbad]
  · intro hfind
    rw [edit_record_of_found rid form s r hfind, if_pos]
    simpa [applyForm] using hbad

/-- Witness for claim C3: a concrete inverted submission against a store
holding two records. -/
theorem claim3_invalid_order_rejected_witness :
    formBad.wake_time ≤ formBad.sleep_time ∧
    (add_record 0 formBad storeDay0 = (storeDay0, AddResult.formError orderErrMsg) ∧
      edit_record 0 formBad storeDay0 =
        (storeDay0, EditResult.formError (applyForm rec08 formBad) orderErrMsg)) := by
  refine ⟨by decide, ?_⟩
  have h := claim3_invalid_order_rejected 0 formBad storeDay0 0 rec08 (by decide)
  exact ⟨h.1, h.2 (by decide)⟩

/-- Claim C4 (amended).  Deleting an id that is not in the store leaves the
store unchanged and returns the generic delete-error page with status 200:
the `NotFound` raised by `get_or_404` is caught by the handler's broad
`except`, so no exception escapes, but the caller sees a 200 error page
rather than a 404-equivalent response. -/
theorem claim4_delete_missing_caught (rid : Nat) (s : Store)
    (habs : s.records.find? (fun r => decide (r.id = rid)) = none) :
    delete_record rid s = (s, DeleteResult.errorPage deleteErrMsg 200) := by
  unfold delete_record
  rw [habs]

/-- Witness for claim C4: deleting id 5 from the empty store. -/
theorem claim4_delete_missing_caught_witness :
    store0.records.find? (fun r => decide (r.id = 5)) = none ∧
    delete_record 5 store0 = (store0, DeleteResult.errorPage deleteErrMsg 200) :=
  ⟨rfl, claim4_delete_missing_caught 5 store0 rfl⟩

/-- Counterexample to claim C4 as stated: deleting a nonexistent id answers
with HTTP status 200 (the generic error page), not a 404-equivalent. -/
theorem claim4_delete_missing_counterexample :
    (delete_record 5 storeDay0).1 = storeDay0 ∧
    (delete_record 5 storeDay0).2.statusCode = 200 ∧
    ¬ (delete_record 5 storeDay0).2.statusCode = 404 := by decide

/-- Claim C5.  For timestamps with `sleep_time < wake_time` the derived
`sleep_duration` equals the difference in seconds divided by 3600 and
rounded to 2 decimals, and the record 2024-01-01T22:00 to 2024-01-02T06:00
has duration 8.0. -/
theorem claim5_duration_formula (r : SleepRecord) (h : r.sleep_time < r.wake_time) :
    r.sleep_duration = duration_hours_spec r.sleep_time r.wake_time ∧
    recC5.sleep_duration = 8 := by
  constructor
  · unfold SleepRecord.sleep_duration duration_hours_spec total_seconds
    push_cast
    ring_nf
  · have hd : recC5.wake_time - recC5.sleep_time = 28800000000 := by decide
    unfold SleepRecord.sleep_duration
    rw [hd]
    have h8 : total_seconds 28800000000 / 3600 = ((8 : Int) : ℚ) := by
      unfold total_seconds; norm_num
    rw [h8, pyRound2_intCast]
    norm_num

/-- Witness for claim C5: the 2024-01-01 scenario record. -/
theorem claim5_duration_formula_witness :
    recC5.sleep_time < recC5.wake_time ∧
    (recC5.sleep_duration = duration_hours_spec recC5.sleep_time recC5.wake_time ∧
      recC5.sleep_duration = 8) :=
  ⟨by decide, claim5_duration_formula recC5 (by decide)⟩

/-- Claim C6.  `find_by_day` returns exactly the records whose
`sleep_time` lies in the inclusive day window, ordered by `sleep_time`
descending, and the 08:00/14:00 scenario comes back as
`[14:00-record, 08:00-record]`. -/
theorem claim6_find_by_day_window_sorted (recs : List SleepRecord) (d : Int) :
    (∀ r, r ∈ find_by_day recs d ↔
      (r ∈ recs ∧ start_of_day d ≤ r.sleep_time ∧ r.sleep_time ≤ end_of_day d)) ∧
    (find_by_day recs d).Pairwise bySleepDesc ∧
    find_by_day [rec08, rec14] 0 = [rec14, rec08] := by
  refine ⟨?_, List.sorted_insertionSort bySleepDesc _, by decide⟩
  intro r
  unfold find_by_day
  rw [List.mem_insertionSort, List.mem_filter]
  simp

/-- Claim C7.  The record stored by `stop_nap` carries exactly the
wall-clock values of the two submitted timestamps, whatever their UTC
offsets were: the response and new store do not depend on the offsets. -/
theorem claim7_stop_nap_strips_offset (today now w1 w2 : Int) (o1 o2 : Option Int)
    (s : Store) :
    ((stop_nap today now ⟨⟨w1, o1⟩, ⟨w2, o2⟩⟩ s).1.records.map
        (fun r => (r.sleep_time, r.wake_time))) =
      s.records.map (fun r => (r.sleep_time, r.wake_time)) ++ [(w1, w2)] ∧
    stop_nap today now ⟨⟨w1, o1⟩, ⟨w2, o2⟩⟩ s =
      stop_nap today now ⟨⟨w1, none⟩, ⟨w2, none⟩⟩ s := by
  constructor
  · simp [stop_nap, insertRecord, mkRecord, TzDateTime.replaceTzNone]
  · rfl

/-- Claim C8.  Editing an existing record twice with the same valid field
values leaves the store equal to the result of editing it once. -/
theorem claim8_edit_idempotent (rid : Nat) (form : AddForm) (s : Store) (r : SleepRecord)
    (hfind : s.records.find? (fun q => decide (q.id = rid)) = some r)
    (hvalid : form.sleep_time < form.wake_time) :
    (edit_record rid form (edit_record rid form s).1).1 = (edit_record rid form s).1 := by
  have hle : ¬ form.wake_time ≤ form.sleep_time := not_le.mpr hvalid
  have h1 : edit_record rid form s =
      (⟨s.records.map (editApply rid form), s.nextId⟩, EditResult.redirect) := by
    rw [edit_record_of_found rid form s r hfind, if_neg]
    simpa [applyForm] using hle
  rw [h1]
  have hfind2 : ((s.records.map (editApply rid form)).find?
      (fun q => decide (q.id = rid))) = some (editApply rid form r) := by
    rw [find?_map_editApply, hfind]; rfl
  have h2 := edit_record_of_found rid form
    ⟨s.records.map (editApply rid form), s.nextId⟩ (editApply rid form r) hfind2
  rw [h2, if_neg]
  · simp [editApply_idem]
  · simpa [applyForm] using hle

/-- Witness for claim C8: editing record 0 of the two-record store twice. -/
theorem claim8_edit_idempotent_witness :
    storeDay0.records.find? (fun q => decide (q.id = 0)) = some rec08 ∧
    formOk.sleep_time < formOk.wake_time ∧
    (edit_record 0 formOk (edit_record 0 formOk storeDay0).1).1 =
      (edit_record 0 formOk storeDay0).1 :=
  ⟨by decide, by decide, claim8_edit_idempotent 0 formOk storeDay0 rec08 (by decide) (by decide)⟩

/-- Claim C9.  The start-timer handler never touches the store: it returns
the store unchanged together with the success payload carrying the current
Warsaw-local instant. -/
theorem claim9_start_nap_pure (nowWarsaw : Int) (s : Store) :
    (start_nap nowWarsaw s).1 = s ∧
    (start_nap nowWarsaw s).2 = ⟨"success", nowWarsaw⟩ :=
  ⟨rfl, rfl⟩

/-- Claim C10.  On a validation failure the edit handler renders the form
with the record object it had already overwritten with the submitted
values, while the committed store keeps the old row unchanged. -/
theorem claim10_edit_error_shows_submitted (rid : Nat) (form : AddForm) (s : Store)
    (r : SleepRecord)
    (hfind : s.records.find? (fun q => decide (q.id = rid)) = some r)
    (hbad : form.wake_time ≤ form.sleep_time) :
    edit_record rid form s = (s, EditResult.formError (applyForm r form) orderErrMsg) ∧
    (applyForm r form).sleep_time = form.sleep_time ∧
    (applyForm r form).wake_time = form.wake_time ∧
    (applyForm r form).notes = form.notes := by
  refine ⟨?_, rfl, rfl, rfl⟩
  rw [edit_record_of_found rid form s r hfind, if_pos]
  simpa [applyForm] using hbad

/-- Witness for claim C10: an inverted submission against record 1. -/
theorem claim10_edit_error_shows_submitted_witness :
    storeDay0.records.find? (fun q => decide (q.id = 1)) = some rec14 ∧
    formBad.wake_time ≤ formBad.sleep_time ∧
    (edit_record 1 formBad storeDay0 =
        (storeDay0, EditResult.formError (applyForm rec14 formBad) orderErrMsg) ∧
      (applyForm rec14 formBad).sleep_time = formBad.sleep_time ∧
      (applyForm rec14 formBad).wake_time = formBad.wake_time ∧
      (applyForm rec14 formBad).notes = formBad.notes) :=
  ⟨by decide, by decide,
    claim10_edit_error_shows_submitted 1 formBad storeDay0 rec14 (by decide) (by decide)⟩

end SleepTracker
